import Mathlib

/-!
Shallow embedding of the CCCoreLib headers `GenericIndexedCloud.h` and
`GeometricalAnalysisTools.h`, together with models (from the design
specification) of the algorithm bodies that the repository's headers
declare but whose implementation files are not part of the source tree.

Machine floating-point values are embedded as rationals (`ℚ`); the
`CCVector3` / `CCVector3d` types are embedded as a record of three
rationals; null-pointer-or-value results are embedded as `Option`.
-/

namespace CCCoreLib

/-- Embedding of `CCVector3` / `CCVector3d`: a 3-component coordinate. -/
structure Vec3 where
  x : ℚ
  y : ℚ
  z : ℚ
deriving DecidableEq, Repr

instance : Add Vec3 where
  add a b := ⟨a.x + b.x, a.y + b.y, a.z + b.z⟩

instance : Inhabited Vec3 where
  default := ⟨0, 0, 0⟩

theorem Vec3.add_def (a b : Vec3) : a + b = ⟨a.x + b.x, a.y + b.y, a.z + b.z⟩ := rfl

/-- Squared Euclidean distance between two points. -/
def sqDist (p q : Vec3) : ℚ :=
  (p.x - q.x) ^ 2 + (p.y - q.y) ^ 2 + (p.z - q.z) ^ 2

theorem sqDist_comm (p q : Vec3) : sqDist p q = sqDist q p := by
  unfold sqDist; ring

/-- Embedding of the `GenericIndexedCloud` class (`GenericIndexedCloud.h`).
The point storage is the list of local points.  `globalShift` models the
cloud's local→global conversion data used by `toGlobal` (declared in the
base class `GenericCloud`, whose header is not in the source tree; the
specification states that a global coordinate is `local + cloud_offset`).
`normals` models the optional per-point normal capability: a derived class
that overrides the capability supplies `some` normal table, while a cloud
that keeps the base-class defaults has `none`. -/
structure GenericIndexedCloud where
  localPoints : List Vec3
  globalShift : Vec3
  normals : Option (List Vec3) := none

/-- Embedding of the cloud size (number of points). -/
def GenericIndexedCloud.size (c : GenericIndexedCloud) : ℕ :=
  c.localPoints.length

/-- Embedding of `getLocalPoint(index)` (pointer version): `some` point for a
valid index, `none` standing for the undefined-behaviour/invalid case. -/
def GenericIndexedCloud.getLocalPoint (c : GenericIndexedCloud) (i : ℕ) : Option Vec3 :=
  c.localPoints[i]?

/-- Modelled from the spec: `toGlobal` is declared in `GenericCloud.h`, which
is not in the source tree; the specification says the optional global
coordinate is `local + cloud_offset`. -/
def GenericIndexedCloud.toGlobal (c : GenericIndexedCloud) (p : Vec3) : Vec3 :=
  p + c.globalShift

/-- Embedding of `getGlobalPoint(index, P)`: the body in
`GenericIndexedCloud.h` is `P = toGlobal(*getLocalPoint(index))`. -/
def GenericIndexedCloud.getGlobalPoint (c : GenericIndexedCloud) (i : ℕ) : Option Vec3 :=
  (c.getLocalPoint i).map c.toGlobal

/-- Embedding of `normalsAvailable()`: the base-class body returns `false`;
an overriding class (modelled by `normals = some table`) reports `true`. -/
def GenericIndexedCloud.normalsAvailable (c : GenericIndexedCloud) : Bool :=
  match c.normals with
  | none => false
  | some _ => true

/-- Embedding of `getNormal(index)`: the base-class body returns `nullptr`
(`none`); an overriding class returns its per-point normal. -/
def GenericIndexedCloud.getNormal (c : GenericIndexedCloud) (i : ℕ) : Option Vec3 :=
  match c.normals with
  | none => none
  | some table => table[i]?

/-- Embedding of the `ErrorCode` enumeration of `GeometricalAnalysisTools.h`. -/
inductive ErrorCode where
  | NoError
  | InvalidInput
  | NotEnoughPoints
  | OctreeComputationFailed
  | ProcessFailed
  | UnhandledCharacteristic
  | NotEnoughMemory
  | ProcessCancelledByUser
deriving DecidableEq, Repr

/-- Embedding of the numeric values the header assigns to `ErrorCode`
(`NoError = 0`, then `-1` down to `-7`). -/
def ErrorCode.value : ErrorCode → ℤ
  | .NoError => 0
  | .InvalidInput => -1
  | .NotEnoughPoints => -2
  | .OctreeComputationFailed => -3
  | .ProcessFailed => -4
  | .UnhandledCharacteristic => -5
  | .NotEnoughMemory => -6
  | .ProcessCancelledByUser => -7

/-- The public (non-protected) algorithm entry points declared by
`GeometricalAnalysisTools.h`. -/
inductive PublicEntryPoint where
  | computeCharactersitic
  | computeLocalDensityApprox
  | computeGravityCenter
  | computeWeightedGravityCenter
  | computeCrossCovarianceMatrix
  | computeWeightedCrossCovarianceMatrix
  | computeCovarianceMatrix
  | flagDuplicatePoints
  | detectSphereRobust
  | computeSphereFrom4
  | detectCircle
deriving DecidableEq, Repr

/-- The return types that appear in the public signatures of
`GeometricalAnalysisTools.h`. -/
inductive DeclaredReturnType where
  | errorCode
  | ccVector3
  | squareMatrixd
deriving DecidableEq, Repr

/-- Embedding of the declared return type of each public entry point, read
off the signatures in `GeometricalAnalysisTools.h` (lines 62, 80, 90, 98,
110, 126, 138, 150, 169, 187, 204). -/
def declaredReturnType : PublicEntryPoint → DeclaredReturnType
  | .computeCharactersitic => .errorCode
  | .computeLocalDensityApprox => .errorCode
  | .computeGravityCenter => .ccVector3
  | .computeWeightedGravityCenter => .ccVector3
  | .computeCrossCovarianceMatrix => .squareMatrixd
  | .computeWeightedCrossCovarianceMatrix => .squareMatrixd
  | .computeCovarianceMatrix => .squareMatrixd
  | .flagDuplicatePoints => .errorCode
  | .detectSphereRobust => .errorCode
  | .computeSphereFrom4 => .errorCode
  | .detectCircle => .errorCode

/-- The entry points that the specification's section 4.5 calls the
"reductions": gravity center, weighted gravity center, covariance and
cross-covariance matrices. -/
def isReduction : PublicEntryPoint → Bool
  | .computeGravityCenter => true
  | .computeWeightedGravityCenter => true
  | .computeCrossCovarianceMatrix => true
  | .computeWeightedCrossCovarianceMatrix => true
  | .computeCovarianceMatrix => true
  | _ => false

/-- Embedding of the `Density` enumeration of `GeometricalAnalysisTools.h`. -/
inductive Density where
  | DENSITY_KNN
  | DENSITY_2D
  | DENSITY_3D
deriving DecidableEq, Repr

/-- Modelled from the spec: the exact-density formula family of section 4.3
(the body of `ComputeGeomCharacteristicAtLevel` is not in the source tree).
`DENSITY_KNN` is the raw neighbor count, `DENSITY_2D` is count / (π·r²),
`DENSITY_3D` is count / ((4/3)·π·r³).  The real constant π is passed as the
rational parameter `pq`. -/
def exactDensityFormula (pq : ℚ) (t : Density) (count r : ℚ) : ℚ :=
  match t with
  | .DENSITY_KNN => count
  | .DENSITY_2D => count / (pq * r ^ 2)
  | .DENSITY_3D => count / ((4 / 3) * pq * r ^ 3)

/-- Modelled from the spec and the header's own warning (the body of
`ComputeApproxPointsDensityInACellAtLevel` is not in the source tree): the
approximate path derives the density from the distance `d` to the single
nearest neighbor; the header warns that "As only one neighbor is extracted,
the DENSITY_KNN type corresponds in fact to the (inverse) distance to the
nearest neighbor". -/
def approxDensityFromNNDist (pq : ℚ) (t : Density) (d : ℚ) : ℚ :=
  match t with
  | .DENSITY_KNN => 1 / d
  | .DENSITY_2D => 1 / (pq * d ^ 2)
  | .DENSITY_3D => 1 / ((4 / 3) * pq * d ^ 3)

/-- Modelled from the spec: the squared distance from point `i` to its single
nearest other point of the cloud ("for each point, finds only its single
nearest neighbor"); `none` when the cloud holds no other point. -/
def nnSqDist (pts : List Vec3) (i : ℕ) : Option ℚ :=
  ((((List.range pts.length).filter (fun j => j ≠ i)).map
    (fun j => sqDist (pts.getD i default) (pts.getD j default))).min?)

/-- Modelled from the spec: the body of `ComputeGravityCenter` is not in the
source tree; section 4.5 specifies a single accumulation pass over the cloud
(`gravityCenter = mean(points)`): sum the coordinates, then divide by the
point count (the empty cloud yields the origin). -/
def vecSum (ps : List Vec3) : Vec3 :=
  ps.foldl (fun a b => a + b) ⟨0, 0, 0⟩

/-- Scalar scaling of a vector (used for the final division by the count). -/
def vecScale (q : ℚ) (v : Vec3) : Vec3 :=
  ⟨q * v.x, q * v.y, q * v.z⟩

/-- Modelled from the spec: `ComputeGravityCenter` as an accumulation pass. -/
def ComputeGravityCenter (ps : List Vec3) : Vec3 :=
  if ps.length = 0 then ⟨0, 0, 0⟩
  else vecScale (1 / (ps.length : ℚ)) (vecSum ps)

/-- Modelled from the spec: the per-level cell edge length of the spatial
index, `bounding-box width / 2^level` (the `DgmOctree` header is not in the
source tree). -/
def cellSizeAt (bbWidth : ℚ) (level : ℕ) : ℚ :=
  bbWidth / 2 ^ level

/-- Modelled from the spec: the integer cell address encoding the position
of a point at a given subdivision level — the floor of each coordinate
offset from the bounding-box corner divided by the cell edge length. -/
def cellAddrOf (bbMin : Vec3) (cellSize : ℚ) (p : Vec3) : ℤ × ℤ × ℤ :=
  (⌊(p.x - bbMin.x) / cellSize⌋, ⌊(p.y - bbMin.y) / cellSize⌋, ⌊(p.z - bbMin.z) / cellSize⌋)

/-- A cell of the spatial index: its integer address and the list of the
indices of the points that fall inside it (a transient view, per the spec's
cell descriptor). -/
structure OctreeCell where
  addr : ℤ × ℤ × ℤ
  pointIdx : List ℕ
deriving DecidableEq, Repr

/-- Modelled from the spec: building the non-empty cells of one subdivision
level of the spatial index (the `DgmOctree` implementation is not in the
source tree) — one cell per distinct occupied address, holding the indices
of the points whose coordinates fall inside it. -/
def buildCellsAtLevel (pts : List Vec3) (bbMin : Vec3) (bbWidth : ℚ) (level : ℕ) :
    List OctreeCell :=
  let cs := cellSizeAt bbWidth level
  let addr := fun i => cellAddrOf bbMin cs (pts.getD i default)
  (((List.range pts.length).map addr).dedup).map
    (fun A => ⟨A, (List.range pts.length).filter (fun i => addr i = A)⟩)

/-- Embedding of the `GeomCharacteristic` enumeration of
`GeometricalAnalysisTools.h`. -/
inductive GeomCharacteristic where
  | Feature
  | Curvature
  | LocalDensity
  | ApproxLocalDensity
  | Roughness
  | MomentOrder1
deriving DecidableEq, Repr

/-- Embedding of the `subOption` decoding for the density characteristics:
the header assigns `DENSITY_KNN = 1`, `DENSITY_2D = 2`, `DENSITY_3D = 3`,
and any other sub-option is unhandled. -/
def densityOfSubOption : ℤ → Option Density
  | 1 => some .DENSITY_KNN
  | 2 => some .DENSITY_2D
  | 3 => some .DENSITY_3D
  | _ => none

/-- Modelled from the spec: the cell-parallel traversal engine of section
4.2 (the `DgmOctree` execute-function-for-all-cells implementation is not in
the source tree).  It dispatches the per-cell worker over the cells in
order, polling the progress channel's cancellation flag before dispatching
each cell; once cancellation is observed it stops dispatching new cells and
the whole pass reports `ProcessCancelledByUser`.  The state type `σ` models
the shared outputs the workers write into. -/
def forEachCell {σ : Type} (worker : OctreeCell → σ → σ) (cancelled : ℕ → Bool) :
    List OctreeCell → ℕ → σ → ErrorCode × σ
  | [], _, st => (.NoError, st)
  | cell :: rest, k, st =>
    if cancelled k then (.ProcessCancelledByUser, st)
    else forEachCell worker cancelled rest (k + 1) (worker cell st)

/-- Modelled from the spec: the number of cloud points within the kernel
radius of point `i` (the radius query of section 4.1, compared on squared
distances; the query centered at a point also returns that point). -/
def countNeighbors (pts : List Vec3) (r : ℚ) (i : ℕ) : ℕ :=
  ((List.range pts.length).filter
    (fun j => decide (sqDist (pts.getD i default) (pts.getD j default) ≤ r ^ 2))).length

/-- Modelled from the spec: the per-cell worker of the exact local-density
characteristic (section 4.3) — for every point of the cell, build the
radius neighborhood and write the `densityType` formula value into the
output Scalar Field at the point's index. -/
def densityCellWorker (pts : List Vec3) (pq : ℚ) (t : Density) (r : ℚ)
    (cell : OctreeCell) (sf : List (Option ℚ)) : List (Option ℚ) :=
  cell.pointIdx.foldl
    (fun s i => s.set i (some (exactDensityFormula pq t (countNeighbors pts r i) r))) sf

/-- Modelled from the spec: `ComputeCharactersitic` (its body is not in the
source tree) — validate the option combination and the cloud size before
any cell work, allocate the output Scalar Field entirely at the invalid
sentinel (`none`), then run the cell-parallel traversal at the chosen
level.  Only the exact local-density characteristic's per-point math is
modelled here; the other characteristics' descriptor math is not needed by
the claims and their worker is not modelled, so their option combinations
are routed to the unhandled case. -/
def ComputeCharactersitic (c : GeomCharacteristic) (subOption : ℤ)
    (pts : List Vec3) (kernelRadius pq : ℚ) (bbMin : Vec3) (bbWidth : ℚ)
    (level : ℕ) (cancelled : ℕ → Bool) : ErrorCode × List (Option ℚ) :=
  let sf : List (Option ℚ) := List.replicate pts.length none
  if pts.length = 0 then (.NotEnoughPoints, sf)
  else
    match c with
    | .LocalDensity =>
      match densityOfSubOption subOption with
      | none => (.UnhandledCharacteristic, sf)
      | some t =>
        forEachCell (densityCellWorker pts pq t kernelRadius) cancelled
          (buildCellsAtLevel pts bbMin bbWidth level) 0 sf
    | _ => (.UnhandledCharacteristic, sf)

/-- Modelled from the spec: the radius query of the duplicate-flagging pass
(section 4.6) — the indices of the other points lying within
`minDistanceBetweenPoints` of point `i`, compared on squared distances. -/
def neighborsWithin (pts : List Vec3) (minD : ℚ) (i : ℕ) : List ℕ :=
  (List.range pts.length).filter
    (fun j => decide (j ≠ i ∧
      sqDist (pts.getD i default) (pts.getD j default) ≤ minD ^ 2))

/-- Modelled from the spec: one visit of the duplicate-flagging pass (the
body of `FlagDuplicatePointsInACellAtLevel` is not in the source tree) — a
point whose output value is still 0 queries its neighbors within the
minimum distance and, if at least one other point is found, writes 1.0 at
the colliding indices it found (so of any close pair the later-visited
point ends up flagged and the earlier-visited one stays 0, as section 4.6
requires), while an already-flagged point is skipped. -/
def flagVisit (pts : List Vec3) (minD : ℚ) (flags : ℕ → ℚ) (i : ℕ) : ℕ → ℚ :=
  if flags i = 0 ∧ neighborsWithin pts minD i ≠ [] then
    fun k => if k ∈ neighborsWithin pts minD i then 1 else flags k
  else flags

/-- Modelled from the spec: `FlagDuplicatePoints` (its body is not in the
source tree) — the output field starts all 0 and the points are visited in
index order, each visit flagging per `flagVisit`. -/
def FlagDuplicatePoints (pts : List Vec3) (minD : ℚ) : ℕ → ℚ :=
  (List.range pts.length).foldl (flagVisit pts minD) (fun _ => 0)

/-- Explicit 3×3 determinant (row-major entries). -/
def det3 (a b c d e f g h i : ℚ) : ℚ :=
  a * (e * i - f * h) - b * (d * i - f * g) + c * (d * h - e * g)

/-- Explicit 4×4 determinant (row-major entries), by cofactor expansion
along the first row. -/
def det4 (a11 a12 a13 a14 a21 a22 a23 a24 a31 a32 a33 a34 a41 a42 a43 a44 : ℚ) : ℚ :=
  a11 * det3 a22 a23 a24 a32 a33 a34 a42 a43 a44
  - a12 * det3 a21 a23 a24 a31 a33 a34 a41 a43 a44
  + a13 * det3 a21 a22 a24 a31 a32 a34 a41 a42 a44
  - a14 * det3 a21 a22 a23 a31 a32 a33 a41 a42 a43

/-- Squared Euclidean norm of a vector. -/
def sqNorm (p : Vec3) : ℚ := p.x ^ 2 + p.y ^ 2 + p.z ^ 2

/-- Modelled from the spec: the coefficient determinant of the 4×4 linear
system obtained from the general sphere equation
x² + y² + z² + D·x + E·y + F·z + G = 0 at the four sample points (the body
of `ComputeSphereFrom4` is not in the source tree); the system is singular
— and the sample degenerate — exactly when this determinant vanishes. -/
def sphereDet (A B C D : Vec3) : ℚ :=
  det4 A.x A.y A.z 1 B.x B.y B.z 1 C.x C.y C.z 1 D.x D.y D.z 1

/-- Cramer numerator for the unknown D of the sphere system (first column
replaced by the right-hand side −(x²+y²+z²)). -/
def sphereNum1 (A B C D : Vec3) : ℚ :=
  det4 (-(sqNorm A)) A.y A.z 1 (-(sqNorm B)) B.y B.z 1
       (-(sqNorm C)) C.y C.z 1 (-(sqNorm D)) D.y D.z 1

/-- Cramer numerator for the unknown E of the sphere system. -/
def sphereNum2 (A B C D : Vec3) : ℚ :=
  det4 A.x (-(sqNorm A)) A.z 1 B.x (-(sqNorm B)) B.z 1
       C.x (-(sqNorm C)) C.z 1 D.x (-(sqNorm D)) D.z 1

/-- Cramer numerator for the unknown F of the sphere system. -/
def sphereNum3 (A B C D : Vec3) : ℚ :=
  det4 A.x A.y (-(sqNorm A)) 1 B.x B.y (-(sqNorm B)) 1
       C.x C.y (-(sqNorm C)) 1 D.x D.y (-(sqNorm D)) 1

/-- Cramer numerator for the unknown G of the sphere system. -/
def sphereNum4 (A B C D : Vec3) : ℚ :=
  det4 A.x A.y A.z (-(sqNorm A)) B.x B.y B.z (-(sqNorm B))
       C.x C.y C.z (-(sqNorm C)) D.x D.y D.z (-(sqNorm D))

/-- Modelled from the spec: `ComputeSphereFrom4` (its body is not in the
source tree) — solve the 4×4 linear system of the general sphere equation
by Cramer's rule; `InvalidInput` when the system is singular
(coplanar/degenerate points).  The center is (−D/2, −E/2, −F/2) and the
C++ code finally takes radius = √(‖center‖² − G); the square root is not
rational, so the embedding returns the squared radius ‖center‖² − G. -/
def ComputeSphereFrom4 (A B C D : Vec3) : ErrorCode × Vec3 × ℚ :=
  if sphereDet A B C D = 0 then (.InvalidInput, ⟨0, 0, 0⟩, 0)
  else
    (.NoError,
     ⟨-(sphereNum1 A B C D / sphereDet A B C D) / 2,
      -(sphereNum2 A B C D / sphereDet A B C D) / 2,
      -(sphereNum3 A B C D / sphereDet A B C D) / 2⟩,
     (-(sphereNum1 A B C D / sphereDet A B C D) / 2) ^ 2 +
     (-(sphereNum2 A B C D / sphereDet A B C D) / 2) ^ 2 +
     (-(sphereNum3 A B C D / sphereDet A B C D) / 2) ^ 2 -
     sphereNum4 A B C D / sphereDet A B C D)

/-- Modelled from the spec: the pseudo-random generator of the robust
detector, "a single explicit pseudo-random generator instance created per
call, seeded from input or from an entropy source"; embedded as a linear
congruential step (the C++ implementation is not in the source tree). -/
def lcgNext (s : ℕ) : ℕ :=
  (1103515245 * s + 12345) % 2 ^ 31

/-- Modelled from the spec: the seed actually given to the generator —
"seeded deterministically if a nonzero seed is supplied, else from a
nondeterministic source"; the nondeterministic source is modelled as the
explicit `entropy` input. -/
def effectiveSeed (seed entropy : ℕ) : ℕ :=
  if seed ≠ 0 then seed else entropy

/-- Modelled from the spec: the RANSAC trial bound of section 4.7 — the
smallest trial count k with (1 − (1 − outliersRatio)⁴)ᵏ ≤ 1 − confidence
(the log-quotient form of the bound), capped by a hard iteration limit. -/
def ransacTrials (outlierRate confid : ℚ) : ℕ :=
  (((List.range 10000).find?
    (fun k => decide ((1 - (1 - outlierRate) ^ 4) ^ k ≤ 1 - confid))).getD 10000)

/-- Median of a list of rationals (element at the middle position of the
sorted list), used by the least-median-of-squares scoring. -/
def medianQ (l : List ℚ) : ℚ :=
  (l.insertionSort (fun a b => a ≤ b)).getD (l.length / 2) 0

/-- Modelled from the spec: least-median-of-squares score of a candidate
sphere — the median residual over the cloud; the geometric residual
(distance − radius)² involves square roots, so it is modelled by the
rational surrogate |squared distance − squared radius| per point. -/
def lmsScore (pts : List Vec3) (c : Vec3) (r2 : ℚ) : ℚ :=
  medianQ (pts.map (fun p => |sqDist p c - r2|))

/-- Modelled from the spec: the sampling loop of section 4.7 — per trial,
draw four random indices from the generator state, reject non-distinct
draws and degenerate samples, compute the closed-form sphere through the
four points and keep the candidate of best (lowest) score. -/
def ransacLoop (pts : List Vec3) :
    ℕ → ℕ → Option (Vec3 × ℚ × ℚ) → Option (Vec3 × ℚ × ℚ)
  | 0, _, best => best
  | fuel + 1, s, best =>
    let n := pts.length
    let s1 := lcgNext s
    let s2 := lcgNext s1
    let s3 := lcgNext s2
    let s4 := lcgNext s3
    let i1 := s1 % n
    let i2 := s2 % n
    let i3 := s3 % n
    let i4 := s4 % n
    let nextBest :=
      if i1 ≠ i2 ∧ i1 ≠ i3 ∧ i1 ≠ i4 ∧ i2 ≠ i3 ∧ i2 ≠ i4 ∧ i3 ≠ i4 then
        match ComputeSphereFrom4 (pts.getD i1 default) (pts.getD i2 default)
            (pts.getD i3 default) (pts.getD i4 default) with
        | (.NoError, c, r2) =>
          let score := lmsScore pts c r2
          match best with
          | none => some (c, r2, score)
          | some (bc, br2, bs) =>
            if score < bs then some (c, r2, score) else some (bc, br2, bs)
        | _ => best
      else best
    ransacLoop pts fuel s4 nextBest

/-- Modelled from the spec: the final least-squares refinement of the best
candidate (`RefineSphereLS` is not in the source tree).  The iterative
Gauss–Newton update on geometric distances involves square roots, so the
refinement is modelled by the algebraic least-squares sphere fit over the
whole cloud (normal equations of Σ(‖p‖² − 2p·c − g)² in the unknowns
(c, g), g = r² − ‖c‖², solved by Cramer's rule); the candidate is kept
unchanged when the normal system is singular. -/
def sphereLSFit (pts : List Vec3) (c0 : Vec3) (r20 : ℚ) : Vec3 × ℚ :=
  let n : ℚ := pts.length
  let sx := (pts.map (fun p => p.x)).sum
  let sy := (pts.map (fun p => p.y)).sum
  let sz := (pts.map (fun p => p.z)).sum
  let sxx := (pts.map (fun p => p.x * p.x)).sum
  let sxy := (pts.map (fun p => p.x * p.y)).sum
  let sxz := (pts.map (fun p => p.x * p.z)).sum
  let syy := (pts.map (fun p => p.y * p.y)).sum
  let syz := (pts.map (fun p => p.y * p.z)).sum
  let szz := (pts.map (fun p => p.z * p.z)).sum
  let sq := (pts.map (fun p => sqNorm p)).sum
  let sqx := (pts.map (fun p => sqNorm p * p.x)).sum
  let sqy := (pts.map (fun p => sqNorm p * p.y)).sum
  let sqz := (pts.map (fun p => sqNorm p * p.z)).sum
  let dt := det4 (4 * sxx) (4 * sxy) (4 * sxz) (2 * sx)
                 (4 * sxy) (4 * syy) (4 * syz) (2 * sy)
                 (4 * sxz) (4 * syz) (4 * szz) (2 * sz)
                 (2 * sx) (2 * sy) (2 * sz) n
  if dt = 0 then (c0, r20)
  else
    let u1 := det4 (2 * sqx) (4 * sxy) (4 * sxz) (2 * sx)
                   (2 * sqy) (4 * syy) (4 * syz) (2 * sy)
                   (2 * sqz) (4 * syz) (4 * szz) (2 * sz)
                   sq (2 * sy) (2 * sz) n / dt
    let u2 := det4 (4 * sxx) (2 * sqx) (4 * sxz) (2 * sx)
                   (4 * sxy) (2 * sqy) (4 * syz) (2 * sy)
                   (4 * sxz) (2 * sqz) (4 * szz) (2 * sz)
                   (2 * sx) sq (2 * sz) n / dt
    let u3 := det4 (4 * sxx) (4 * sxy) (2 * sqx) (2 * sx)
                   (4 * sxy) (4 * syy) (2 * sqy) (2 * sy)
                   (4 * sxz) (4 * syz) (2 * sqz) (2 * sz)
                   (2 * sx) (2 * sy) sq n / dt
    let u4 := det4 (4 * sxx) (4 * sxy) (4 * sxz) (2 * sqx)
                   (4 * sxy) (4 * syy) (4 * syz) (2 * sqy)
                   (4 * sxz) (4 * syz) (4 * szz) (2 * sqz)
                   (2 * sx) (2 * sy) (2 * sz) sq / dt
    (⟨u1, u2, u3⟩, u4 + (u1 ^ 2 + u2 ^ 2 + u3 ^ 2))

/-- Modelled from the spec: `DetectSphereRobust` (its body is not in the
source tree) — eager validation, then the seeded sampling loop of section
4.7, then the least-squares refinement of the best candidate; the outputs
are the error code, the center, the squared radius and the mean residual
surrogate in place of the float RMS.  The progress/cancellation channel is
not modelled (it does not affect the seeding behaviour under study). -/
def DetectSphereRobust (pts : List Vec3) (outlierRate confid : ℚ)
    (seed entropy : ℕ) : ErrorCode × Vec3 × ℚ × ℚ :=
  if pts.length < 4 then (.NotEnoughPoints, ⟨0, 0, 0⟩, 0, 0)
  else if outlierRate < 0 ∨ 1 ≤ outlierRate ∨ confid ≤ 0 ∨ 1 ≤ confid then
    (.InvalidInput, ⟨0, 0, 0⟩, 0, 0)
  else
    match ransacLoop pts (ransacTrials outlierRate confid)
        (effectiveSeed seed entropy) none with
    | none => (.ProcessFailed, ⟨0, 0, 0⟩, 0, 0)
    | some (c, r2, _) =>
      let fit := sphereLSFit pts c r2
      (.NoError, fit.1, fit.2,
        (pts.map (fun p => |sqDist p fit.1 - fit.2|)).sum / pts.length)

theorem foldl_add_x (ps : List Vec3) (a : Vec3) :
    (ps.foldl (fun u v => u + v) a).x = a.x + (ps.map Vec3.x).sum := by
  induction ps generalizing a with
  | nil => simp
  | cons p ps ih =>
    rw [List.foldl_cons, ih]
    simp [Vec3.add_def]
    ring

theorem foldl_add_y (ps : List Vec3) (a : Vec3) :
    (ps.foldl (fun u v => u + v) a).y = a.y + (ps.map Vec3.y).sum := by
  induction ps generalizing a with
  | nil => simp
  | cons p ps ih =>
    rw [List.foldl_cons, ih]
    simp [Vec3.add_def]
    ring

theorem foldl_add_z (ps : List Vec3) (a : Vec3) :
    (ps.foldl (fun u v => u + v) a).z = a.z + (ps.map Vec3.z).sum := by
  induction ps generalizing a with
  | nil => simp
  | cons p ps ih =>
    rw [List.foldl_cons, ih]
    simp [Vec3.add_def]
    ring

/-- C1 counterexample: `ComputeGravityCenter` is a public entry point and one
of the section-4.5 reductions, yet its declared return type in
`GeometricalAnalysisTools.h` (line 90) is `CCVector3`, not `ErrorCode`, so
not every public algorithm entry point returns an `ErrorCode`. -/
theorem c1_gravityCenter_returns_vector :
    declaredReturnType .computeGravityCenter = .ccVector3 ∧
    declaredReturnType .computeGravityCenter ≠ .errorCode ∧
    isReduction .computeGravityCenter = true := by
  decide

/-- C1 (amended): a public entry point of `GeometricalAnalysisTools` returns
an `ErrorCode` exactly when it is not one of the section-4.5 reductions; the
reductions (gravity center, weighted gravity center, covariance and
cross-covariance matrices) return their result value directly (`CCVector3`
or `SquareMatrixd`) with no `ErrorCode` channel. -/
theorem c1_returnType_classification :
    ∀ e : PublicEntryPoint,
      (declaredReturnType e = .errorCode ↔ isReduction e = false) := by
  intro e
  cases e <;> decide

/-- C2 counterexample: for a cloud of two points at distance 2, the
nearest-neighbor squared distance from point 0 is 4, and the approximate
DENSITY_KNN value at that distance is 1/2 (the inverse distance), not the
raw count 1 that the exact-density formula family yields for a neighbor
count fixed at 1. -/
theorem c2_knn_inverse_distance_cex :
    nnSqDist [⟨0, 0, 0⟩, ⟨2, 0, 0⟩] 0 = some 4 ∧
    approxDensityFromNNDist 3 .DENSITY_KNN 2 = 1 / 2 ∧
    approxDensityFromNNDist 3 .DENSITY_KNN 2 ≠ exactDensityFormula 3 .DENSITY_KNN 1 2 := by
  refine ⟨?_, ?_, ?_⟩
  · norm_num [nnSqDist, sqDist, List.range_succ]
  · norm_num [approxDensityFromNNDist]
  · norm_num [approxDensityFromNNDist, exactDensityFormula]

/-- C2 (amended): the approximate local density derives, for every point,
from the distance `d` to its single nearest neighbor; for `DENSITY_2D` and
`DENSITY_3D` it applies the exact-density formulas with the neighbor count
fixed at 1, but for `DENSITY_KNN` it equals the inverse distance `1/d` (as
the header warns) and so differs from the exact formula's raw count 1
whenever `d ≠ 1`. -/
theorem c2_approx_density_formulas (pq d : ℚ) (hd : d ≠ 0) :
    approxDensityFromNNDist pq .DENSITY_2D d = exactDensityFormula pq .DENSITY_2D 1 d ∧
    approxDensityFromNNDist pq .DENSITY_3D d = exactDensityFormula pq .DENSITY_3D 1 d ∧
    approxDensityFromNNDist pq .DENSITY_KNN d = 1 / d ∧
    (d ≠ 1 →
      approxDensityFromNNDist pq .DENSITY_KNN d ≠ exactDensityFormula pq .DENSITY_KNN 1 d) := by
  refine ⟨rfl, rfl, rfl, fun h1 h2 => ?_⟩
  have h3 : 1 / d = 1 := h2
  rw [div_eq_iff hd, one_mul] at h3
  exact h1 h3.symm

/-- Witness for `c2_approx_density_formulas` at `pq = 3`, `d = 2`. -/
theorem c2_approx_density_formulas_witness :
    (2 : ℚ) ≠ 0 ∧
    (approxDensityFromNNDist 3 .DENSITY_2D 2 = exactDensityFormula 3 .DENSITY_2D 1 2 ∧
     approxDensityFromNNDist 3 .DENSITY_3D 2 = exactDensityFormula 3 .DENSITY_3D 1 2 ∧
     approxDensityFromNNDist 3 .DENSITY_KNN 2 = 1 / 2 ∧
     ((2 : ℚ) ≠ 1 →
       approxDensityFromNNDist 3 .DENSITY_KNN 2 ≠ exactDensityFormula 3 .DENSITY_KNN 1 2)) :=
  ⟨by norm_num, c2_approx_density_formulas 3 2 (by norm_num)⟩

/-- C4: `ComputeGravityCenter` returns the arithmetic mean of the point
coordinates on every nonempty cloud; in particular on the four points
(0,0,0), (2,0,0), (0,2,0), (0,0,2) it returns (1/2, 1/2, 1/2). -/
theorem c4_gravityCenter_is_mean :
    (∀ ps : List Vec3, ps ≠ [] →
      ComputeGravityCenter ps =
        ⟨(ps.map Vec3.x).sum / (ps.length : ℚ),
         (ps.map Vec3.y).sum / (ps.length : ℚ),
         (ps.map Vec3.z).sum / (ps.length : ℚ)⟩) ∧
    ComputeGravityCenter [⟨0, 0, 0⟩, ⟨2, 0, 0⟩, ⟨0, 2, 0⟩, ⟨0, 0, 2⟩] =
      ⟨1 / 2, 1 / 2, 1 / 2⟩ := by
  constructor
  · intro ps hps
    have hl : ps.length ≠ 0 := fun h => hps (List.length_eq_zero.mp h)
    unfold ComputeGravityCenter vecScale vecSum
    rw [if_neg hl]
    rw [Vec3.mk.injEq]
    refine ⟨?_, ?_, ?_⟩
    · rw [foldl_add_x ps ⟨0, 0, 0⟩]; ring
    · rw [foldl_add_y ps ⟨0, 0, 0⟩]; ring
    · rw [foldl_add_z ps ⟨0, 0, 0⟩]; ring
  · norm_num [ComputeGravityCenter, vecSum, vecScale, Vec3.add_def, Vec3.mk.injEq]

/-- Witness for `c4_gravityCenter_is_mean` on the spec's four points. -/
theorem c4_gravityCenter_is_mean_witness :
    ([⟨0, 0, 0⟩, ⟨2, 0, 0⟩, ⟨0, 2, 0⟩, ⟨0, 0, 2⟩] : List Vec3) ≠ [] ∧
    ComputeGravityCenter [⟨0, 0, 0⟩, ⟨2, 0, 0⟩, ⟨0, 2, 0⟩, ⟨0, 0, 2⟩] =
      ⟨(([⟨0, 0, 0⟩, ⟨2, 0, 0⟩, ⟨0, 2, 0⟩, ⟨0, 0, 2⟩] : List Vec3).map Vec3.x).sum /
         (([⟨0, 0, 0⟩, ⟨2, 0, 0⟩, ⟨0, 2, 0⟩, ⟨0, 0, 2⟩] : List Vec3).length : ℚ),
       (([⟨0, 0, 0⟩, ⟨2, 0, 0⟩, ⟨0, 2, 0⟩, ⟨0, 0, 2⟩] : List Vec3).map Vec3.y).sum /
         (([⟨0, 0, 0⟩, ⟨2, 0, 0⟩, ⟨0, 2, 0⟩, ⟨0, 0, 2⟩] : List Vec3).length : ℚ),
       (([⟨0, 0, 0⟩, ⟨2, 0, 0⟩, ⟨0, 2, 0⟩, ⟨0, 0, 2⟩] : List Vec3).map Vec3.z).sum /
         (([⟨0, 0, 0⟩, ⟨2, 0, 0⟩, ⟨0, 2, 0⟩, ⟨0, 0, 2⟩] : List Vec3).length : ℚ)⟩ :=
  ⟨by simp, c4_gravityCenter_is_mean.1 _ (by simp)⟩

/-- C9: for every valid index (one at which `getLocalPoint` yields a point),
`getGlobalPoint` yields exactly the local point sent through the cloud's
local→global conversion `toGlobal`, which adds the cloud offset. -/
theorem c9_getGlobalPoint_agrees (c : GenericIndexedCloud) (i : ℕ) (P : Vec3)
    (h : c.getLocalPoint i = some P) :
    c.getGlobalPoint i = some (c.toGlobal P) ∧ c.toGlobal P = P + c.globalShift := by
  constructor
  · unfold GenericIndexedCloud.getGlobalPoint
    rw [h]
    rfl
  · rfl

/-- Witness for `c9_getGlobalPoint_agrees` on a one-point cloud. -/
theorem c9_getGlobalPoint_agrees_witness :
    ({ localPoints := [⟨1, 2, 3⟩], globalShift := ⟨10, 20, 30⟩ } :
        GenericIndexedCloud).getLocalPoint 0 = some ⟨1, 2, 3⟩ ∧
    (({ localPoints := [⟨1, 2, 3⟩], globalShift := ⟨10, 20, 30⟩ } :
        GenericIndexedCloud).getGlobalPoint 0 =
      some (({ localPoints := [⟨1, 2, 3⟩], globalShift := ⟨10, 20, 30⟩ } :
        GenericIndexedCloud).toGlobal ⟨1, 2, 3⟩) ∧
     ({ localPoints := [⟨1, 2, 3⟩], globalShift := ⟨10, 20, 30⟩ } :
        GenericIndexedCloud).toGlobal ⟨1, 2, 3⟩ =
      ⟨1, 2, 3⟩ + ({ localPoints := [⟨1, 2, 3⟩], globalShift := ⟨10, 20, 30⟩ } :
        GenericIndexedCloud).globalShift) :=
  ⟨rfl, c9_getGlobalPoint_agrees _ 0 ⟨1, 2, 3⟩ rfl⟩

/-- C10: a cloud that keeps the base-class defaults (no normal table)
reports `normalsAvailable() = false` and `getNormal(index) = nullptr` for
every index. -/
theorem c10_default_normal_capability (c : GenericIndexedCloud)
    (h : c.normals = none) :
    c.normalsAvailable = false ∧ ∀ i : ℕ, c.getNormal i = none := by
  refine ⟨?_, fun i => ?_⟩
  · simp [GenericIndexedCloud.normalsAvailable, h]
  · simp [GenericIndexedCloud.getNormal, h]

/-- Witness for `c10_default_normal_capability` on a default cloud. -/
theorem c10_default_normal_capability_witness :
    ({ localPoints := [⟨0, 0, 0⟩], globalShift := ⟨0, 0, 0⟩ } :
        GenericIndexedCloud).normals = none ∧
    (({ localPoints := [⟨0, 0, 0⟩], globalShift := ⟨0, 0, 0⟩ } :
        GenericIndexedCloud).normalsAvailable = false ∧
     ∀ i : ℕ, ({ localPoints := [⟨0, 0, 0⟩], globalShift := ⟨0, 0, 0⟩ } :
        GenericIndexedCloud).getNormal i = none) :=
  ⟨rfl, c10_default_normal_capability _ rfl⟩

theorem countP_decide_eq_count {α : Type} [DecidableEq α] (l : List α) (a : α) :
    l.countP (fun b => decide (a = b)) = l.count a := by
  induction l with
  | nil => rfl
  | cons x xs ih =>
    rw [List.countP_cons, List.count_cons, ih]
    by_cases h : x = a
    · simp [h]
    · simp [h, Ne.symm h]

/-- C8: every point index of the cloud belongs to exactly one cell's point
list at every subdivision level of the built index. -/
theorem c8_cell_partition (pts : List Vec3) (bbMin : Vec3) (bbWidth : ℚ) (level : ℕ)
    (i : ℕ) (hi : i < pts.length) :
    (buildCellsAtLevel pts bbMin bbWidth level).countP
      (fun cell => decide (i ∈ cell.pointIdx)) = 1 := by
  unfold buildCellsAtLevel
  rw [List.countP_map]
  simp only [Function.comp_def]
  have hcongr :
      ∀ A ∈ (((List.range pts.length).map
          (fun j => cellAddrOf bbMin (cellSizeAt bbWidth level) (pts.getD j default))).dedup),
        (decide (i ∈ (List.range pts.length).filter
            (fun k => cellAddrOf bbMin (cellSizeAt bbWidth level) (pts.getD k default) = A))
          = true) ↔
        ((fun B => decide
            (cellAddrOf bbMin (cellSizeAt bbWidth level) (pts.getD i default) = B)) A
          = true) := by
    intro A _
    simp [List.mem_filter, List.mem_range, hi]
  rw [List.countP_congr hcongr]
  rw [countP_decide_eq_count]
  refine List.count_eq_one_of_mem (List.nodup_dedup _) ?_
  rw [List.mem_dedup]
  exact List.mem_map.mpr ⟨i, List.mem_range.mpr hi, rfl⟩

/-- Witness for `c8_cell_partition` on a concrete two-point cloud. -/
theorem c8_cell_partition_witness :
    0 < ([⟨0, 0, 0⟩, ⟨5, 0, 0⟩] : List Vec3).length ∧
    (buildCellsAtLevel [⟨0, 0, 0⟩, ⟨5, 0, 0⟩] ⟨0, 0, 0⟩ 8 2).countP
      (fun cell => decide (0 ∈ cell.pointIdx)) = 1 :=
  ⟨by simp, c8_cell_partition [⟨0, 0, 0⟩, ⟨5, 0, 0⟩] ⟨0, 0, 0⟩ 8 2 0 (by simp)⟩

theorem buildCellsAtLevel_ne_nil (pts : List Vec3) (bbMin : Vec3) (bbWidth : ℚ)
    (level : ℕ) (h : 0 < pts.length) :
    buildCellsAtLevel pts bbMin bbWidth level ≠ [] := by
  unfold buildCellsAtLevel
  intro hcon
  rw [List.map_eq_nil_iff, List.dedup_eq_nil, List.map_eq_nil_iff, List.range_eq_nil] at hcon
  omega

/-- C7: if cancellation is already requested at the first poll, a
cell-parallel pass returns `ProcessCancelledByUser` with the shared output
state untouched — generically for every worker and, for the
`ComputeCharactersitic` entry point on a nonempty cloud with a valid
density sub-option, with the output Scalar Field left entirely at its
initial invalid-sentinel value. -/
theorem c7_cancellation_before_first_cell :
    (∀ (σ : Type) (worker : OctreeCell → σ → σ) (cancelled : ℕ → Bool)
        (cells : List OctreeCell) (st : σ),
      cancelled 0 = true → cells ≠ [] →
      forEachCell worker cancelled cells 0 st = (.ProcessCancelledByUser, st)) ∧
    (∀ (subOption : ℤ) (t : Density) (pts : List Vec3) (kernelRadius pq : ℚ)
        (bbMin : Vec3) (bbWidth : ℚ) (level : ℕ) (cancelled : ℕ → Bool),
      cancelled 0 = true → 0 < pts.length → densityOfSubOption subOption = some t →
      ComputeCharactersitic .LocalDensity subOption pts kernelRadius pq bbMin bbWidth
          level cancelled
        = (.ProcessCancelledByUser, List.replicate pts.length none)) := by
  constructor
  · intro σ worker cancelled cells st hc hne
    match cells with
    | [] => exact absurd rfl hne
    | cell :: rest => simp [forEachCell, hc]
  · intro subOption t pts kernelRadius pq bbMin bbWidth level cancelled hc hn hsub
    unfold ComputeCharactersitic
    rw [if_neg (Nat.pos_iff_ne_zero.mp hn)]
    simp only [hsub]
    have hne := buildCellsAtLevel_ne_nil pts bbMin bbWidth level hn
    match hcells : buildCellsAtLevel pts bbMin bbWidth level with
    | [] => exact absurd hcells hne
    | cell :: rest => simp [forEachCell, hc]

/-- Witness for `c7_cancellation_before_first_cell` on a one-point cloud
with the cancellation flag raised from the start. -/
theorem c7_cancellation_witness :
    (fun _ : ℕ => true) 0 = true ∧
    0 < ([⟨0, 0, 0⟩] : List Vec3).length ∧
    densityOfSubOption 1 = some .DENSITY_KNN ∧
    ComputeCharactersitic .LocalDensity 1 [⟨0, 0, 0⟩] 1 3 ⟨0, 0, 0⟩ 8 2
        (fun _ => true)
      = (.ProcessCancelledByUser, List.replicate 1 none) :=
  ⟨rfl, by simp, rfl,
    c7_cancellation_before_first_cell.2 1 .DENSITY_KNN [⟨0, 0, 0⟩] 1 3 ⟨0, 0, 0⟩ 8 2
      (fun _ => true) rfl (by simp) rfl⟩

theorem mem_neighborsWithin {pts : List Vec3} {minD : ℚ} {i j : ℕ} :
    j ∈ neighborsWithin pts minD i ↔
      j < pts.length ∧ j ≠ i ∧
        sqDist (pts.getD i default) (pts.getD j default) ≤ minD ^ 2 := by
  simp [neighborsWithin, List.mem_filter, List.mem_range, and_assoc]

theorem neighborsWithin_symm {pts : List Vec3} {minD : ℚ} {i j : ℕ}
    (hi : i < pts.length) (hj : j ∈ neighborsWithin pts minD i) :
    i ∈ neighborsWithin pts minD j := by
  rw [mem_neighborsWithin] at hj ⊢
  exact ⟨hi, fun h => hj.2.1 h.symm, by rw [sqDist_comm]; exact hj.2.2⟩

theorem filter_range_eq_singleton {p : ℕ → Bool} {b : ℕ} :
    ∀ n, b < n → (∀ j, j < n → (p j = true ↔ j = b)) →
      (List.range n).filter p = [b] := by
  intro n
  induction n with
  | zero => intro hb _; exact absurd hb (Nat.not_lt_zero b)
  | succ n ih =>
    intro hb h
    rw [List.range_succ, List.filter_append]
    by_cases hbn : b = n
    · have h1 : (List.range n).filter p = [] := by
        rw [List.filter_eq_nil_iff]
        intro a ha
        rw [List.mem_range] at ha
        intro hpa
        have hab := (h a (by omega)).mp hpa
        omega
      have h2 : List.filter p [n] = [n] := by
        have hpn : p n = true := (h n (Nat.lt_succ_self n)).mpr (by omega)
        simp [hpn]
      rw [h1, h2, List.nil_append, hbn]
    · have h1 := ih (by omega) (fun j hj => h j (by omega))
      have h2 : List.filter p [n] = [] := by
        have hpn : p n = false := by
          by_contra hcon
          rw [Bool.not_eq_false] at hcon
          exact hbn ((h n (Nat.lt_succ_self n)).mp hcon).symm
        simp [hpn]
      rw [h1, h2, List.append_nil]

theorem flagVisit_step (pts : List Vec3) (minD : ℚ) (k : ℕ) (_hkn : k < pts.length)
    (hpk : neighborsWithin pts minD k = [] ∨
      ∃ j0, j0 < pts.length ∧ j0 ≠ k ∧ neighborsWithin pts minD k = [j0] ∧
        neighborsWithin pts minD j0 = [k])
    (F : ℕ → ℚ)
    (hF : ∀ m, ((∃ j, j < k ∧ j < m ∧ neighborsWithin pts minD j = [m]) → F m = 1) ∧
      ((¬∃ j, j < k ∧ j < m ∧ neighborsWithin pts minD j = [m]) → F m = 0)) :
    ∀ m, ((∃ j, j < k + 1 ∧ j < m ∧ neighborsWithin pts minD j = [m]) →
        flagVisit pts minD F k m = 1) ∧
      ((¬∃ j, j < k + 1 ∧ j < m ∧ neighborsWithin pts minD j = [m]) →
        flagVisit pts minD F k m = 0) := by
  rcases hpk with hempty | ⟨j0, hj0n, hj0k, hNk, hNj0⟩
  · have hfv : flagVisit pts minD F k = F := by
      unfold flagVisit
      rw [if_neg]
      rintro ⟨-, hcon⟩
      exact hcon hempty
    rw [hfv]
    intro m
    constructor
    · rintro ⟨j, hjk1, hjm, hNj⟩
      have hjk : j < k := by
        rcases Nat.lt_succ_iff_lt_or_eq.mp hjk1 with hlt | heq
        · exact hlt
        · exfalso; rw [heq, hempty] at hNj; simp at hNj
      exact (hF m).1 ⟨j, hjk, hjm, hNj⟩
    · intro hno
      exact (hF m).2 (fun ⟨j, hjk, hjm, hNj⟩ => hno ⟨j, by omega, hjm, hNj⟩)
  · by_cases hord : k < j0
    · have hFk : F k = 0 := by
        refine (hF k).2 ?_
        rintro ⟨j, hjk, hjk2, hNj⟩
        have hkNj : k ∈ neighborsWithin pts minD j := by
          rw [hNj]; exact List.mem_singleton_self k
        have hjNk : j ∈ neighborsWithin pts minD k :=
          neighborsWithin_symm (by omega) hkNj
        rw [hNk] at hjNk
        simp at hjNk
        omega
      have hcond : F k = 0 ∧ neighborsWithin pts minD k ≠ [] := by
        refine ⟨hFk, ?_⟩; rw [hNk]; simp
      have hfv : flagVisit pts minD F k =
          fun m => if m ∈ neighborsWithin pts minD k then 1 else F m := by
        unfold flagVisit; rw [if_pos hcond]
      rw [hfv]
      intro m
      constructor
      · rintro ⟨j, hjk1, hjm, hNj⟩
        by_cases hm : m ∈ neighborsWithin pts minD k
        · simp [hm]
        · show (if m ∈ neighborsWithin pts minD k then (1 : ℚ) else F m) = 1
          rw [if_neg hm]
          have hjk : j < k := by
            rcases Nat.lt_succ_iff_lt_or_eq.mp hjk1 with hlt | heq
            · exact hlt
            · exfalso
              rw [heq, hNk] at hNj
              simp at hNj
              apply hm
              rw [hNk]
              simp [hNj]
          exact (hF m).1 ⟨j, hjk, hjm, hNj⟩
      · intro hno
        have hm : m ∉ neighborsWithin pts minD k := by
          intro hmem
          rw [hNk] at hmem
          simp at hmem
          exact hno ⟨k, by omega, by omega, by rw [hNk, hmem]⟩
        show (if m ∈ neighborsWithin pts minD k then (1 : ℚ) else F m) = 0
        rw [if_neg hm]
        refine (hF m).2 ?_
        rintro ⟨j, hjk, hjm, hNj⟩
        exact hno ⟨j, by omega, hjm, hNj⟩
    · have hj0k' : j0 < k := by omega
      have hFk : F k = 1 := (hF k).1 ⟨j0, hj0k', hj0k', hNj0⟩
      have hfv : flagVisit pts minD F k = F := by
        unfold flagVisit
        rw [if_neg]
        rintro ⟨h0, -⟩
        rw [hFk] at h0
        norm_num at h0
      rw [hfv]
      intro m
      constructor
      · rintro ⟨j, hjk1, hjm, hNj⟩
        rcases Nat.lt_succ_iff_lt_or_eq.mp hjk1 with hlt | heq
        · exact (hF m).1 ⟨j, hlt, hjm, hNj⟩
        · exfalso
          rw [heq, hNk] at hNj
          simp at hNj
          omega
      · intro hno
        exact (hF m).2 (fun ⟨j, hjk, hjm, hNj⟩ => hno ⟨j, by omega, hjm, hNj⟩)

theorem flagLoop_char (pts : List Vec3) (minD : ℚ)
    (hpair : ∀ i, i < pts.length → neighborsWithin pts minD i = [] ∨
      ∃ j0, j0 < pts.length ∧ j0 ≠ i ∧ neighborsWithin pts minD i = [j0] ∧
        neighborsWithin pts minD j0 = [i]) :
    ∀ k, k ≤ pts.length → ∀ m,
      ((∃ j, j < k ∧ j < m ∧ neighborsWithin pts minD j = [m]) →
        ((List.range k).foldl (flagVisit pts minD) (fun _ => 0)) m = 1) ∧
      ((¬∃ j, j < k ∧ j < m ∧ neighborsWithin pts minD j = [m]) →
        ((List.range k).foldl (flagVisit pts minD) (fun _ => 0)) m = 0) := by
  intro k
  induction k with
  | zero =>
    intro _ m
    constructor
    · rintro ⟨j, hj, -, -⟩; exact absurd hj (Nat.not_lt_zero j)
    · intro _; rfl
  | succ k ih =>
    intro hk m
    have hstep := flagVisit_step pts minD k (by omega) (hpair k (by omega))
      ((List.range k).foldl (flagVisit pts minD) (fun _ => 0)) (ih (by omega))
    rw [List.range_succ, List.foldl_append, List.foldl_cons, List.foldl_nil]
    exact hstep m

/-- C5: on a cloud made of one close pair (indices `a < b`, closer than the
minimum distance) with every other point isolated (farther than the minimum
distance from everything), `FlagDuplicatePoints` writes 1.0 at exactly the
later-visited index `b` of the pair, 0.0 at the earlier index `a`, and 0.0
at every isolated point. -/
theorem c5_flagDuplicatePoints_pair (pts : List Vec3) (minD : ℚ) (a b : ℕ)
    (hab : a < b) (hbn : b < pts.length)
    (hclose : sqDist (pts.getD a default) (pts.getD b default) < minD ^ 2)
    (hiso : ∀ c, c < pts.length → c ≠ a → c ≠ b → ∀ j, j < pts.length → j ≠ c →
      ¬ sqDist (pts.getD c default) (pts.getD j default) ≤ minD ^ 2) :
    FlagDuplicatePoints pts minD b = 1 ∧ FlagDuplicatePoints pts minD a = 0 ∧
    ∀ c, c < pts.length → c ≠ a → c ≠ b → FlagDuplicatePoints pts minD c = 0 := by
  have han : a < pts.length := lt_trans hab hbn
  have hNa : neighborsWithin pts minD a = [b] := by
    unfold neighborsWithin
    apply filter_range_eq_singleton pts.length hbn
    intro j hj
    simp only [decide_eq_true_eq]
    constructor
    · rintro ⟨hja, hle⟩
      by_contra hjb
      exact hiso j hj hja hjb a han (fun h => hja h.symm)
        (by rw [sqDist_comm]; exact hle)
    · rintro rfl
      exact ⟨hab.ne', le_of_lt hclose⟩
  have hNb : neighborsWithin pts minD b = [a] := by
    unfold neighborsWithin
    apply filter_range_eq_singleton pts.length han
    intro j hj
    simp only [decide_eq_true_eq]
    constructor
    · rintro ⟨hjb, hle⟩
      by_contra hja
      exact hiso j hj hja hjb b hbn (fun h => hjb h.symm)
        (by rw [sqDist_comm]; exact hle)
    · rintro rfl
      exact ⟨hab.ne, by rw [sqDist_comm]; exact le_of_lt hclose⟩
  have hNc : ∀ c, c < pts.length → c ≠ a → c ≠ b →
      neighborsWithin pts minD c = [] := by
    intro c hc hca hcb
    unfold neighborsWithin
    rw [List.filter_eq_nil_iff]
    intro j hj
    rw [List.mem_range] at hj
    simp only [decide_eq_true_eq]
    rintro ⟨hjc, hle⟩
    exact hiso c hc hca hcb j hj hjc hle
  have hpair : ∀ i, i < pts.length → neighborsWithin pts minD i = [] ∨
      ∃ j0, j0 < pts.length ∧ j0 ≠ i ∧ neighborsWithin pts minD i = [j0] ∧
        neighborsWithin pts minD j0 = [i] := by
    intro i hi
    by_cases hia : i = a
    · subst hia; right; exact ⟨b, hbn, hab.ne', hNa, hNb⟩
    · by_cases hib : i = b
      · subst hib; right; exact ⟨a, han, hab.ne, hNb, hNa⟩
      · left; exact hNc i hi hia hib
  have hchar := flagLoop_char pts minD hpair pts.length le_rfl
  unfold FlagDuplicatePoints
  refine ⟨?_, ?_, ?_⟩
  · exact (hchar b).1 ⟨a, han, hab, hNa⟩
  · refine (hchar a).2 ?_
    rintro ⟨j, hjn, hja, hNj⟩
    have hjb : j ≠ b := by omega
    have hja' : j ≠ a := by omega
    rw [hNc j hjn hja' hjb] at hNj
    simp at hNj
  · intro c hc hca hcb
    refine (hchar c).2 ?_
    rintro ⟨j, hjn, hjc, hNj⟩
    by_cases hja : j = a
    · rw [hja, hNa] at hNj; simp at hNj; exact hcb hNj.symm
    · by_cases hjb : j = b
      · rw [hjb, hNb] at hNj; simp at hNj; exact hca hNj.symm
      · rw [hNc j hjn hja hjb] at hNj; simp at hNj

/-- Witness for `c5_flagDuplicatePoints_pair` on the spec's test cloud: one
point plus one exact duplicate of it, minimum distance 1. -/
theorem c5_flagDuplicatePoints_pair_witness :
    (0 : ℕ) < 1 ∧ 1 < ([⟨0, 0, 0⟩, ⟨0, 0, 0⟩] : List Vec3).length ∧
    sqDist (([⟨0, 0, 0⟩, ⟨0, 0, 0⟩] : List Vec3).getD 0 default)
        (([⟨0, 0, 0⟩, ⟨0, 0, 0⟩] : List Vec3).getD 1 default) < 1 ^ 2 ∧
    FlagDuplicatePoints [⟨0, 0, 0⟩, ⟨0, 0, 0⟩] 1 1 = 1 ∧
    FlagDuplicatePoints [⟨0, 0, 0⟩, ⟨0, 0, 0⟩] 1 0 = 0 := by
  have h := c5_flagDuplicatePoints_pair [⟨0, 0, 0⟩, ⟨0, 0, 0⟩] 1 0 1
    (by norm_num) (by simp) (by norm_num [sqDist])
    (by
      intro c hc hca hcb
      exfalso
      simp only [List.length_cons, List.length_nil] at hc
      omega)
  exact ⟨by norm_num, by simp, by norm_num [sqDist], h.1, h.2.1⟩

theorem det4_mul_v1_eq_zero (a1 a2 a3 b1 b2 b3 c1 c2 c3 d1 d2 d3 v1 v2 v3 v4 : ℚ)
    (hA : a1 * v1 + a2 * v2 + a3 * v3 + v4 = 0)
    (hB : b1 * v1 + b2 * v2 + b3 * v3 + v4 = 0)
    (hC : c1 * v1 + c2 * v2 + c3 * v3 + v4 = 0)
    (hD : d1 * v1 + d2 * v2 + d3 * v3 + v4 = 0) :
    det4 a1 a2 a3 1 b1 b2 b3 1 c1 c2 c3 1 d1 d2 d3 1 * v1 = 0 := by
  unfold det4 det3
  linear_combination
    (b2 * (c3 - d3) - b3 * (c2 - d2) + (c2 * d3 - c3 * d2)) * hA
    - (a2 * (c3 - d3) - a3 * (c2 - d2) + (c2 * d3 - c3 * d2)) * hB
    + (a2 * (b3 - d3) - a3 * (b2 - d2) + (b2 * d3 - b3 * d2)) * hC
    - (a2 * (b3 - c3) - a3 * (b2 - c2) + (b2 * c3 - b3 * c2)) * hD

theorem det4_mul_v2_eq_zero (a1 a2 a3 b1 b2 b3 c1 c2 c3 d1 d2 d3 v1 v2 v3 v4 : ℚ)
    (hA : a1 * v1 + a2 * v2 + a3 * v3 + v4 = 0)
    (hB : b1 * v1 + b2 * v2 + b3 * v3 + v4 = 0)
    (hC : c1 * v1 + c2 * v2 + c3 * v3 + v4 = 0)
    (hD : d1 * v1 + d2 * v2 + d3 * v3 + v4 = 0) :
    det4 a1 a2 a3 1 b1 b2 b3 1 c1 c2 c3 1 d1 d2 d3 1 * v2 = 0 := by
  unfold det4 det3
  linear_combination
    -(b1 * (c3 - d3) - b3 * (c1 - d1) + (c1 * d3 - c3 * d1)) * hA
    + (a1 * (c3 - d3) - a3 * (c1 - d1) + (c1 * d3 - c3 * d1)) * hB
    - (a1 * (b3 - d3) - a3 * (b1 - d1) + (b1 * d3 - b3 * d1)) * hC
    + (a1 * (b3 - c3) - a3 * (b1 - c1) + (b1 * c3 - b3 * c1)) * hD

theorem det4_mul_v3_eq_zero (a1 a2 a3 b1 b2 b3 c1 c2 c3 d1 d2 d3 v1 v2 v3 v4 : ℚ)
    (hA : a1 * v1 + a2 * v2 + a3 * v3 + v4 = 0)
    (hB : b1 * v1 + b2 * v2 + b3 * v3 + v4 = 0)
    (hC : c1 * v1 + c2 * v2 + c3 * v3 + v4 = 0)
    (hD : d1 * v1 + d2 * v2 + d3 * v3 + v4 = 0) :
    det4 a1 a2 a3 1 b1 b2 b3 1 c1 c2 c3 1 d1 d2 d3 1 * v3 = 0 := by
  unfold det4 det3
  linear_combination
    (b1 * (c2 - d2) - b2 * (c1 - d1) + (c1 * d2 - c2 * d1)) * hA
    - (a1 * (c2 - d2) - a2 * (c1 - d1) + (c1 * d2 - c2 * d1)) * hB
    + (a1 * (b2 - d2) - a2 * (b1 - d1) + (b1 * d2 - b2 * d1)) * hC
    - (a1 * (b2 - c2) - a2 * (b1 - c1) + (b1 * c2 - b2 * c1)) * hD

theorem det4_mul_v4_eq_zero (a1 a2 a3 b1 b2 b3 c1 c2 c3 d1 d2 d3 v1 v2 v3 v4 : ℚ)
    (hA : a1 * v1 + a2 * v2 + a3 * v3 + v4 = 0)
    (hB : b1 * v1 + b2 * v2 + b3 * v3 + v4 = 0)
    (hC : c1 * v1 + c2 * v2 + c3 * v3 + v4 = 0)
    (hD : d1 * v1 + d2 * v2 + d3 * v3 + v4 = 0) :
    det4 a1 a2 a3 1 b1 b2 b3 1 c1 c2 c3 1 d1 d2 d3 1 * v4 = 0 := by
  unfold det4 det3
  linear_combination
    -(b1 * (c2 * d3 - c3 * d2) - b2 * (c1 * d3 - c3 * d1) + b3 * (c1 * d2 - c2 * d1)) * hA
    + (a1 * (c2 * d3 - c3 * d2) - a2 * (c1 * d3 - c3 * d1) + a3 * (c1 * d2 - c2 * d1)) * hB
    - (a1 * (b2 * d3 - b3 * d2) - a2 * (b1 * d3 - b3 * d1) + a3 * (b1 * d2 - b2 * d1)) * hC
    + (a1 * (b2 * c3 - b3 * c2) - a2 * (b1 * c3 - b3 * c1) + a3 * (b1 * c2 - b2 * c1)) * hD

theorem hom_solution_zero (a1 a2 a3 b1 b2 b3 c1 c2 c3 d1 d2 d3 v1 v2 v3 v4 : ℚ)
    (hdet : det4 a1 a2 a3 1 b1 b2 b3 1 c1 c2 c3 1 d1 d2 d3 1 ≠ 0)
    (hA : a1 * v1 + a2 * v2 + a3 * v3 + v4 = 0)
    (hB : b1 * v1 + b2 * v2 + b3 * v3 + v4 = 0)
    (hC : c1 * v1 + c2 * v2 + c3 * v3 + v4 = 0)
    (hD : d1 * v1 + d2 * v2 + d3 * v3 + v4 = 0) :
    v1 = 0 ∧ v2 = 0 ∧ v3 = 0 ∧ v4 = 0 :=
  ⟨(mul_eq_zero.mp
      (det4_mul_v1_eq_zero a1 a2 a3 b1 b2 b3 c1 c2 c3 d1 d2 d3 v1 v2 v3 v4
        hA hB hC hD)).resolve_left hdet,
   (mul_eq_zero.mp
      (det4_mul_v2_eq_zero a1 a2 a3 b1 b2 b3 c1 c2 c3 d1 d2 d3 v1 v2 v3 v4
        hA hB hC hD)).resolve_left hdet,
   (mul_eq_zero.mp
      (det4_mul_v3_eq_zero a1 a2 a3 b1 b2 b3 c1 c2 c3 d1 d2 d3 v1 v2 v3 v4
        hA hB hC hD)).resolve_left hdet,
   (mul_eq_zero.mp
      (det4_mul_v4_eq_zero a1 a2 a3 b1 b2 b3 c1 c2 c3 d1 d2 d3 v1 v2 v3 v4
        hA hB hC hD)).resolve_left hdet⟩

theorem sphere_row_A (A B C D : Vec3) :
    A.x * sphereNum1 A B C D + A.y * sphereNum2 A B C D + A.z * sphereNum3 A B C D
      + sphereNum4 A B C D = sphereDet A B C D * (-(sqNorm A)) := by
  unfold sphereNum1 sphereNum2 sphereNum3 sphereNum4 sphereDet sqNorm det4 det3
  ring

theorem sphere_row_B (A B C D : Vec3) :
    B.x * sphereNum1 A B C D + B.y * sphereNum2 A B C D + B.z * sphereNum3 A B C D
      + sphereNum4 A B C D = sphereDet A B C D * (-(sqNorm B)) := by
  unfold sphereNum1 sphereNum2 sphereNum3 sphereNum4 sphereDet sqNorm det4 det3
  ring

theorem sphere_row_C (A B C D : Vec3) :
    C.x * sphereNum1 A B C D + C.y * sphereNum2 A B C D + C.z * sphereNum3 A B C D
      + sphereNum4 A B C D = sphereDet A B C D * (-(sqNorm C)) := by
  unfold sphereNum1 sphereNum2 sphereNum3 sphereNum4 sphereDet sqNorm det4 det3
  ring

theorem sphere_row_D (A B C D : Vec3) :
    D.x * sphereNum1 A B C D + D.y * sphereNum2 A B C D + D.z * sphereNum3 A B C D
      + sphereNum4 A B C D = sphereDet A B C D * (-(sqNorm D)) := by
  unfold sphereNum1 sphereNum2 sphereNum3 sphereNum4 sphereDet sqNorm det4 det3
  ring

theorem sphere_point_eq (px py pz n1 n2 n3 n4 dt : ℚ) (hdet : dt ≠ 0)
    (hrow : px * n1 + py * n2 + pz * n3 + n4 = dt * (-(px ^ 2 + py ^ 2 + pz ^ 2))) :
    (px - -(n1 / dt) / 2) ^ 2 + (py - -(n2 / dt) / 2) ^ 2 + (pz - -(n3 / dt) / 2) ^ 2
      = (-(n1 / dt) / 2) ^ 2 + (-(n2 / dt) / 2) ^ 2 + (-(n3 / dt) / 2) ^ 2 - n4 / dt := by
  have key : dt * (px ^ 2 + py ^ 2 + pz ^ 2) + px * n1 + py * n2 + pz * n3 + n4 = 0 := by
    linear_combination hrow
  have expand :
      (px - -(n1 / dt) / 2) ^ 2 + (py - -(n2 / dt) / 2) ^ 2 + (pz - -(n3 / dt) / 2) ^ 2
        - ((-(n1 / dt) / 2) ^ 2 + (-(n2 / dt) / 2) ^ 2 + (-(n3 / dt) / 2) ^ 2 - n4 / dt)
        = (dt * (px ^ 2 + py ^ 2 + pz ^ 2) + px * n1 + py * n2 + pz * n3 + n4) / dt := by
    field_simp
    ring
  rw [key, zero_div] at expand
  linarith [expand]

theorem sphere_unique (A B C D : Vec3) (hdet : sphereDet A B C D ≠ 0)
    (c c' : Vec3) (r2 r2' : ℚ)
    (hA : sqDist A c = r2) (hB : sqDist B c = r2)
    (hC : sqDist C c = r2) (hD : sqDist D c = r2)
    (hA' : sqDist A c' = r2') (hB' : sqDist B c' = r2')
    (hC' : sqDist C c' = r2') (hD' : sqDist D c' = r2') :
    c' = c ∧ r2' = r2 := by
  unfold sqDist at hA hB hC hD hA' hB' hC' hD'
  unfold sphereDet at hdet
  obtain ⟨hv1, hv2, hv3, hv4⟩ :=
    hom_solution_zero A.x A.y A.z B.x B.y B.z C.x C.y C.z D.x D.y D.z
      (-2 * (c'.x - c.x)) (-2 * (c'.y - c.y)) (-2 * (c'.z - c.z))
      (c'.x ^ 2 + c'.y ^ 2 + c'.z ^ 2 - (c.x ^ 2 + c.y ^ 2 + c.z ^ 2) - r2' + r2)
      hdet
      (by linear_combination hA' - hA)
      (by linear_combination hB' - hB)
      (by linear_combination hC' - hC)
      (by linear_combination hD' - hD)
  have hx : c'.x = c.x := by linarith
  have hy : c'.y = c.y := by linarith
  have hz : c'.z = c.z := by linarith
  constructor
  · calc c' = ⟨c'.x, c'.y, c'.z⟩ := rfl
    _ = ⟨c.x, c.y, c.z⟩ := by rw [hx, hy, hz]
    _ = c := rfl
  · rw [hx, hy, hz] at hv4
    linarith

/-- C3: `ComputeSphereFrom4` on a non-degenerate sample (nonzero system
determinant) returns `NoError` together with the center and squared radius
of the unique sphere through the four points; on a singular/coplanar
sample it returns `InvalidInput`.  In particular, four points of the unit
sphere centered at the origin yield center (0,0,0) and squared radius 1,
and four coplanar points yield `InvalidInput`. -/
theorem c3_computeSphereFrom4_correct :
    (∀ A B C D : Vec3, sphereDet A B C D ≠ 0 →
      (ComputeSphereFrom4 A B C D).1 = .NoError ∧
      sqDist A (ComputeSphereFrom4 A B C D).2.1 = (ComputeSphereFrom4 A B C D).2.2 ∧
      sqDist B (ComputeSphereFrom4 A B C D).2.1 = (ComputeSphereFrom4 A B C D).2.2 ∧
      sqDist C (ComputeSphereFrom4 A B C D).2.1 = (ComputeSphereFrom4 A B C D).2.2 ∧
      sqDist D (ComputeSphereFrom4 A B C D).2.1 = (ComputeSphereFrom4 A B C D).2.2 ∧
      (∀ (c' : Vec3) (r2' : ℚ),
        sqDist A c' = r2' → sqDist B c' = r2' → sqDist C c' = r2' → sqDist D c' = r2' →
        c' = (ComputeSphereFrom4 A B C D).2.1 ∧ r2' = (ComputeSphereFrom4 A B C D).2.2)) ∧
    (∀ A B C D : Vec3, sphereDet A B C D = 0 →
      ComputeSphereFrom4 A B C D = (.InvalidInput, ⟨0, 0, 0⟩, 0)) ∧
    ComputeSphereFrom4 ⟨1, 0, 0⟩ ⟨-1, 0, 0⟩ ⟨0, 1, 0⟩ ⟨0, 0, 1⟩
      = (.NoError, ⟨0, 0, 0⟩, 1) ∧
    ComputeSphereFrom4 ⟨0, 0, 0⟩ ⟨1, 0, 0⟩ ⟨0, 1, 0⟩ ⟨1, 1, 0⟩
      = (.InvalidInput, ⟨0, 0, 0⟩, 0) := by
  refine ⟨?_, ?_, ?_, ?_⟩
  · intro A B C D hdet
    have hres : ComputeSphereFrom4 A B C D =
        (.NoError,
         ⟨-(sphereNum1 A B C D / sphereDet A B C D) / 2,
          -(sphereNum2 A B C D / sphereDet A B C D) / 2,
          -(sphereNum3 A B C D / sphereDet A B C D) / 2⟩,
         (-(sphereNum1 A B C D / sphereDet A B C D) / 2) ^ 2 +
         (-(sphereNum2 A B C D / sphereDet A B C D) / 2) ^ 2 +
         (-(sphereNum3 A B C D / sphereDet A B C D) / 2) ^ 2 -
         sphereNum4 A B C D / sphereDet A B C D) := by
      unfold ComputeSphereFrom4
      rw [if_neg hdet]
    have honA : sqDist A (ComputeSphereFrom4 A B C D).2.1
        = (ComputeSphereFrom4 A B C D).2.2 := by
      rw [hres]
      exact sphere_point_eq A.x A.y A.z (sphereNum1 A B C D) (sphereNum2 A B C D)
        (sphereNum3 A B C D) (sphereNum4 A B C D) (sphereDet A B C D) hdet
        (sphere_row_A A B C D)
    have honB : sqDist B (ComputeSphereFrom4 A B C D).2.1
        = (ComputeSphereFrom4 A B C D).2.2 := by
      rw [hres]
      exact sphere_point_eq B.x B.y B.z (sphereNum1 A B C D) (sphereNum2 A B C D)
        (sphereNum3 A B C D) (sphereNum4 A B C D) (sphereDet A B C D) hdet
        (sphere_row_B A B C D)
    have honC : sqDist C (ComputeSphereFrom4 A B C D).2.1
        = (ComputeSphereFrom4 A B C D).2.2 := by
      rw [hres]
      exact sphere_point_eq C.x C.y C.z (sphereNum1 A B C D) (sphereNum2 A B C D)
        (sphereNum3 A B C D) (sphereNum4 A B C D) (sphereDet A B C D) hdet
        (sphere_row_C A B C D)
    have honD : sqDist D (ComputeSphereFrom4 A B C D).2.1
        = (ComputeSphereFrom4 A B C D).2.2 := by
      rw [hres]
      exact sphere_point_eq D.x D.y D.z (sphereNum1 A B C D) (sphereNum2 A B C D)
        (sphereNum3 A B C D) (sphereNum4 A B C D) (sphereDet A B C D) hdet
        (sphere_row_D A B C D)
    refine ⟨by rw [hres], honA, honB, honC, honD, ?_⟩
    intro c' r2' h1 h2 h3 h4
    exact sphere_unique A B C D hdet (ComputeSphereFrom4 A B C D).2.1 c'
      (ComputeSphereFrom4 A B C D).2.2 r2' honA honB honC honD h1 h2 h3 h4
  · intro A B C D hdet
    unfold ComputeSphereFrom4
    rw [if_pos hdet]
  · norm_num [ComputeSphereFrom4, sphereDet, sphereNum1, sphereNum2, sphereNum3,
      sphereNum4, sqNorm, det4, det3]
  · norm_num [ComputeSphereFrom4, sphereDet, sphereNum1, sphereNum2, sphereNum3,
      sphereNum4, sqNorm, det4, det3]

/-- Witness for `c3_computeSphereFrom4_correct` on four points of the unit
sphere (non-degenerate branch) and four coplanar points (degenerate
branch). -/
theorem c3_computeSphereFrom4_witness :
    sphereDet ⟨1, 0, 0⟩ ⟨-1, 0, 0⟩ ⟨0, 1, 0⟩ ⟨0, 0, 1⟩ ≠ 0 ∧
    (ComputeSphereFrom4 ⟨1, 0, 0⟩ ⟨-1, 0, 0⟩ ⟨0, 1, 0⟩ ⟨0, 0, 1⟩).1 = .NoError ∧
    sqDist ⟨1, 0, 0⟩ (ComputeSphereFrom4 ⟨1, 0, 0⟩ ⟨-1, 0, 0⟩ ⟨0, 1, 0⟩ ⟨0, 0, 1⟩).2.1
      = (ComputeSphereFrom4 ⟨1, 0, 0⟩ ⟨-1, 0, 0⟩ ⟨0, 1, 0⟩ ⟨0, 0, 1⟩).2.2 ∧
    sphereDet ⟨0, 0, 0⟩ ⟨1, 0, 0⟩ ⟨0, 1, 0⟩ ⟨1, 1, 0⟩ = 0 ∧
    ComputeSphereFrom4 ⟨0, 0, 0⟩ ⟨1, 0, 0⟩ ⟨0, 1, 0⟩ ⟨1, 1, 0⟩
      = (.InvalidInput, ⟨0, 0, 0⟩, 0) := by
  have hdet : sphereDet ⟨1, 0, 0⟩ ⟨-1, 0, 0⟩ ⟨0, 1, 0⟩ ⟨0, 0, 1⟩ ≠ 0 := by
    norm_num [sphereDet, det4, det3]
  have hdeg : sphereDet ⟨0, 0, 0⟩ ⟨1, 0, 0⟩ ⟨0, 1, 0⟩ ⟨1, 1, 0⟩ = 0 := by
    norm_num [sphereDet, det4, det3]
  have h := c3_computeSphereFrom4_correct.1 ⟨1, 0, 0⟩ ⟨-1, 0, 0⟩ ⟨0, 1, 0⟩ ⟨0, 0, 1⟩ hdet
  have h2 := c3_computeSphereFrom4_correct.2.1 ⟨0, 0, 0⟩ ⟨1, 0, 0⟩ ⟨0, 1, 0⟩ ⟨1, 1, 0⟩ hdeg
  exact ⟨hdet, h.1, h.2.1, hdeg, h2⟩

/-- C6: `DetectSphereRobust` is deterministic when a nonzero seed is
supplied — two runs with the same cloud, outliers ratio, confidence and
the same nonzero seed produce identical code, center, radius and rms
outputs whatever the entropy source yields — and the generator is seeded
from the entropy source exactly when the supplied seed is 0. -/
theorem c6_detectSphereRobust_deterministic :
    (∀ (pts : List Vec3) (outlierRate confid : ℚ) (seed e1 e2 : ℕ), seed ≠ 0 →
      DetectSphereRobust pts outlierRate confid seed e1
        = DetectSphereRobust pts outlierRate confid seed e2) ∧
    (∀ seed e : ℕ, seed ≠ 0 → effectiveSeed seed e = seed) ∧
    (∀ e : ℕ, effectiveSeed 0 e = e) := by
  refine ⟨?_, ?_, ?_⟩
  · intro pts outlierRate confid seed e1 e2 h
    have h12 : effectiveSeed seed e1 = effectiveSeed seed e2 := by
      simp [effectiveSeed, h]
    unfold DetectSphereRobust
    rw [h12]
  · intro seed e h
    simp [effectiveSeed, h]
  · intro e
    simp [effectiveSeed]

/-- Witness for `c6_detectSphereRobust_deterministic` with seed 1 and two
different entropy samples. -/
theorem c6_detectSphereRobust_deterministic_witness :
    (1 : ℕ) ≠ 0 ∧
    DetectSphereRobust [] (1 / 5) (99 / 100) 1 0
      = DetectSphereRobust [] (1 / 5) (99 / 100) 1 7 :=
  ⟨by decide,
   c6_detectSphereRobust_deterministic.1 [] (1 / 5) (99 / 100) 1 0 7 (by decide)⟩

end CCCoreLib
